import Mathlib

/-!
Verification of the weather-app backend (an Express server talking to the
OpenWeatherMap provider, with a MongoDB cache and search history).

The repository consists of two near-identical server files: `src/server.js`
and a second unnamed copy (`src/unnamed/part_000`).  We embed the request
handlers of both files.  Numeric payload fields (temperatures, humidity,
wind speed) are modelled as exact rationals; JavaScript's `Math.round` and
`Number.prototype.toFixed(1)` are embedded with their ECMAScript rounding
semantics on those rationals.  Timestamps are integers (milliseconds since
the epoch, as produced by `Date.now()`).

The calendar-date grouping key of a forecast sample is the string produced
by `new Date(item.dt * 1000).toLocaleDateString('en-IN')`; that rendering
depends on the host timezone, so a `RawSample` carries the rendered date
string directly as its grouping key.
-/

/-- ECMAScript `Math.round x`: the integer nearest to `x`, a tie rounding
toward positive infinity, i.e. `⌊x + 1/2⌋`. -/
def jsRound (x : ℚ) : ℤ := ⌊x + 1/2⌋

/-- Rounding to the nearest integer with ties away from zero, the rounding
the specification ascribes to the aggregator ("ties round half away from
zero per standard rounding"). -/
def roundHalfAwayFromZero (x : ℚ) : ℤ :=
  if x < 0 then -⌊-x + 1/2⌋ else ⌊x + 1/2⌋

/-- ECMAScript `x.toFixed(1)`: strip the sign, pick the integer `n` with
`n / 10` closest to `|x|` (a tie picking the larger `n`, i.e. `⌊10|x| + 1/2⌋`),
and print `sign ++ (n / 10) ++ "." ++ (n % 10)`. -/
def toFixed1 (x : ℚ) : String :=
  (if x < 0 then "-" else "")
    ++ toString ((⌊10 * |x| + 1/2⌋).toNat / 10)
    ++ "." ++ toString ((⌊10 * |x| + 1/2⌋).toNat % 10)

/-- Arithmetic mean, as `reduce((a, b) => a + b) / length` computes it on a
non-empty list. -/
def mean (l : List ℚ) : ℚ := l.sum / l.length

/-- JavaScript `toLowerCase` on one character, for the ASCII range the
city names and queries of this server use. -/
def lowerChar (c : Char) : Char :=
  if 'A' ≤ c ∧ c ≤ 'Z' then Char.ofNat (c.toNat + 32) else c

/-- JavaScript `s.toLowerCase()` (ASCII range). -/
def lowerStr (s : String) : String := ⟨s.data.map lowerChar⟩

/-- JavaScript `s.includes(sub)`: `sub` occurs as a contiguous substring
of `s`. -/
def strIncludes (s sub : String) : Bool := decide (sub.data <:+: s.data)

/-- One 3-hourly forecast sample from the provider's `list` array: the
grouping key `new Date(item.dt * 1000).toLocaleDateString('en-IN')`,
`item.main.temp`, `item.main.humidity`, `item.wind.speed`, and
`item.weather[0]`'s description and icon. -/
structure RawSample where
  date : String
  temp : ℚ
  humidity : ℚ
  wind : ℚ
  description : String
  icon : String
deriving DecidableEq, Repr

/-- The per-date accumulator `grouped[date]`. -/
structure Bucket where
  temps : List ℚ
  humidity : List ℚ
  wind : List ℚ
  description : String
  icon : String
deriving DecidableEq, Repr

/-- One element of the `dailyData` response array. -/
structure DailySummary where
  date : String
  temperature : ℤ
  humidity : ℤ
  windSpeed : String
  description : String
  icon : String
deriving DecidableEq, Repr

/-- The provider's current-weather payload (`response.data`): the handlers
only inspect its `name` field; the rest is carried verbatim. -/
structure WeatherSnapshot where
  name : String
  payload : String
deriving DecidableEq, Repr

/-- A document of the `WeatherCache` collection. -/
structure CacheEntry where
  city : String
  data : WeatherSnapshot
  cachedAt : ℤ
deriving DecidableEq, Repr

/-- A document of the `SearchHistory` collection. -/
structure HistoryRecord where
  city : String
  searchedAt : ℤ
  userId : String
deriving DecidableEq, Repr

/-- The two MongoDB collections the server reads and writes. -/
structure ServerState where
  cache : List CacheEntry
  history : List HistoryRecord
deriving DecidableEq, Repr

/-- Response of `GET /api/weather/:city`: 200 with the payload, or
404 `{ message: 'City not found' }`. -/
inductive WeatherResponse where
  | ok (data : WeatherSnapshot)
  | notFound
deriving DecidableEq, Repr

/-- Response of `GET /api/history`: 200 with the records, or
500 `{ message: 'Error fetching history' }`. -/
inductive HistoryListResponse where
  | ok (records : List HistoryRecord)
  | error500
deriving DecidableEq, Repr

/-- Response of `DELETE /api/history`: 200 `{ message: 'History cleared' }`,
or 500 `{ message: 'Error clearing history' }`. -/
inductive ClearResponse where
  | cleared
  | error500
deriving DecidableEq, Repr

/-- Outcomes of the awaited effects of one `GET /api/weather/:city` request:
the axios fetch (collapsed to success with a payload, or any failure), and
whether each of the two awaited MongoDB writes succeeds (an awaited write
that rejects throws into the handler's `catch`). `now` is `Date.now()`. -/
structure Effects where
  fetch : Except Unit WeatherSnapshot
  cacheWriteOk : Bool
  historyWriteOk : Bool
  now : ℤ
deriving Repr

namespace Server1

/-- One step of the `forEach` in the forecast handler: push the sample's
numeric fields onto its date's bucket, creating the bucket (capturing
description and icon from this first sample) if the date is new.  The
association list keeps keys in first-encountered order, as JavaScript
object keys do for non-index string keys. -/
def updateGroup : List (String × Bucket) → RawSample → List (String × Bucket)
  | [], s =>
    [(s.date, ⟨[s.temp], [s.humidity], [s.wind], s.description, s.icon⟩)]
  | (d, b) :: rest, s =>
    if d = s.date then
      (d, { b with temps := b.temps ++ [s.temp],
                   humidity := b.humidity ++ [s.humidity],
                   wind := b.wind ++ [s.wind] }) :: rest
    else
      (d, b) :: updateGroup rest s

/-- The `grouped` object after the `forEach` over `response.data.list`. -/
def groupSamples (l : List RawSample) : List (String × Bucket) :=
  l.foldl updateGroup []

/-- The `dailyData.push({...})` body for one retained bucket. -/
def summarize (d : String) (b : Bucket) : DailySummary :=
  { date := d
  , temperature := jsRound (mean b.temps)
  , humidity := jsRound (mean b.humidity)
  , windSpeed := toFixed1 (mean b.wind)
  , description := b.description
  , icon := b.icon }

/-- The forecast aggregation of `GET /api/forecast/:city`: group the samples
by rendered date, take the first 7 buckets in key order
(`Object.keys(grouped).slice(0, 7)`), and summarize each. -/
def processForecast (l : List RawSample) : List DailySummary :=
  ((groupSamples l).take 7).map (fun p => summarize p.1 p.2)

/-- The cache read of `GET /api/weather/:city`:
`WeatherCache.findOne({ city: city.toLowerCase(),
cachedAt: { $gte: new Date(Date.now() - 10 * 60 * 1000) } })`. -/
def cacheLookup (cache : List CacheEntry) (city : String) (now : ℤ) :
    Option CacheEntry :=
  cache.find? (fun e => e.city == lowerStr city
    && decide (now - 10 * 60 * 1000 ≤ e.cachedAt))

/-- `WeatherCache.findOneAndUpdate({ city }, { city, data, cachedAt },
{ upsert: true, new: true })`: overwrite the document keyed by the
lowercased city, or insert one. -/
def cacheUpsert (cache : List CacheEntry) (city : String)
    (data : WeatherSnapshot) (now : ℤ) : List CacheEntry :=
  if cache.any (fun e => e.city == city) then
    cache.map (fun e => if e.city == city then ⟨city, data, now⟩ else e)
  else
    cache ++ [⟨city, data, now⟩]

/-- The `GET /api/weather/:city` handler: serve a fresh cache entry when
one exists; otherwise fetch from the provider, upsert the cache, append a
history record (`SearchHistory.create({ city: response.data.name })`), and
return the payload.  Every `await` happens inside the `try`, so a failed
fetch or a rejected write lands in the `catch`, which answers
404 `{ message: 'City not found' }`. -/
def getWeather (st : ServerState) (city : String) (eff : Effects) :
    WeatherResponse × ServerState :=
  match cacheLookup st.cache city eff.now with
  | some e => (.ok e.data, st)
  | none =>
    match eff.fetch with
    | .error _ => (.notFound, st)
    | .ok data =>
      if eff.cacheWriteOk then
        let st1 : ServerState :=
          { st with cache := cacheUpsert st.cache (lowerStr city) data eff.now }
        if eff.historyWriteOk then
          (.ok data,
           { st1 with history := st1.history ++ [⟨data.name, eff.now, "default"⟩] })
        else
          (.notFound, st1)
      else
        (.notFound, st)

/-- Stable insertion of a record into a list sorted by `searchedAt`
descending; a record from earlier in the scan goes before later records
with an equal timestamp. -/
def insertDesc (r : HistoryRecord) : List HistoryRecord → List HistoryRecord
  | [] => [r]
  | x :: xs =>
    if x.searchedAt ≤ r.searchedAt then r :: x :: xs else x :: insertDesc r xs

/-- `SearchHistory.find().sort({ searchedAt: -1 })`: the stored records
ordered by `searchedAt` descending. -/
def sortByTimeDesc : List HistoryRecord → List HistoryRecord
  | [] => []
  | r :: rest => insertDesc r (sortByTimeDesc rest)

/-- The dedup `forEach` of `GET /api/history`: keep a record when its
lowercased city is not yet in `seen`, else drop it. -/
def dedupKeepFirst : List HistoryRecord → List String → List HistoryRecord
  | [], _ => []
  | r :: rest, seen =>
    if lowerStr r.city ∈ seen then dedupKeepFirst rest seen
    else r :: dedupKeepFirst rest (lowerStr r.city :: seen)

/-- The read of `GET /api/history`: sort by `searchedAt` descending,
`.limit(10)`, then deduplicate by lowercased city keeping the first
occurrence. -/
def listRecent (store : List HistoryRecord) : List HistoryRecord :=
  dedupKeepFirst ((sortByTimeDesc store).take 10) []

/-- The `GET /api/history` handler; a storage failure lands in the `catch`
(500 `{ message: 'Error fetching history' }`). -/
def getHistory (dbOk : Bool) (store : List HistoryRecord) : HistoryListResponse :=
  if dbOk then .ok (listRecent store) else .error500

/-- The `DELETE /api/history` handler: `SearchHistory.deleteMany({})`,
answering 200 on success and 500 on a storage failure. -/
def clearHistory (dbOk : Bool) (store : List HistoryRecord) :
    ClearResponse × List HistoryRecord :=
  if dbOk then (.cleared, []) else (.error500, store)

/-- The static `indianCities` list of `GET /api/cities/search`
(`src/server.js`, 100 entries). -/
def indianCities : List String :=
  ["Mumbai", "Delhi", "Bangalore", "Hyderabad", "Ahmedabad", "Chennai", "Kolkata",
   "Surat", "Pune", "Jaipur", "Lucknow", "Kanpur", "Nagpur", "Indore", "Thane",
   "Bhopal", "Visakhapatnam", "Pimpri-Chinchwad", "Patna", "Vadodara", "Ghaziabad",
   "Ludhiana", "Agra", "Nashik", "Faridabad", "Meerut", "Rajkot", "Kalyan-Dombivali",
   "Vasai-Virar", "Varanasi", "Srinagar", "Aurangabad", "Dhanbad", "Amritsar",
   "Navi Mumbai", "Allahabad", "Ranchi", "Howrah", "Coimbatore", "Jabalpur",
   "Gwalior", "Vijayawada", "Jodhpur", "Madurai", "Raipur", "Kota", "Chandigarh",
   "Guwahati", "Solapur", "Hubli-Dharwad", "Mysore", "Tiruchirappalli", "Bareilly",
   "Aligarh", "Tiruppur", "Moradabad", "Jalandhar", "Bhubaneswar", "Salem",
   "Warangal", "Mira-Bhayandar", "Thiruvananthapuram", "Bhiwandi", "Saharanpur",
   "Guntur", "Amravati", "Bikaner", "Noida", "Jamshedpur", "Bhilai", "Cuttack",
   "Firozabad", "Kochi", "Nellore", "Bhavnagar", "Dehradun", "Durgapur", "Asansol",
   "Rourkela", "Nanded", "Kolhapur", "Ajmer", "Akola", "Gulbarga", "Jamnagar",
   "Ujjain", "Loni", "Siliguri", "Jhansi", "Ulhasnagar", "Jammu", "Sangli-Miraj",
   "Mangalore", "Erode", "Belgaum", "Ambattur", "Tirunelveli", "Malegaon", "Gaya",
   "Udaipur", "Maheshtala", "Panipat"]

/-- The `GET /api/cities/search` handler.  It has no `try`/`catch`; when
the query parameter `q` is absent, `q.toLowerCase()` raises a `TypeError`
that escapes the handler uncaught (modelled as `Except.error ()`).
Otherwise: case-insensitive substring filter over `indianCities`,
`.slice(0, 5)`. -/
def citiesSearch (q : Option String) : Except Unit (List String) :=
  match q with
  | none => .error ()
  | some q =>
    .ok ((indianCities.filter
      (fun city => strIncludes (lowerStr city) (lowerStr q))).take 5)

/-- The `GET /health` handler: `{ ok: true }`. -/
def health : Bool := true

end Server1

namespace Server2

/-- One step of the `forEach` in `src/unnamed/part_000`'s forecast
handler. -/
def updateGroup : List (String × Bucket) → RawSample → List (String × Bucket)
  | [], s =>
    [(s.date, ⟨[s.temp], [s.humidity], [s.wind], s.description, s.icon⟩)]
  | (d, b) :: rest, s =>
    if d = s.date then
      (d, { b with temps := b.temps ++ [s.temp],
                   humidity := b.humidity ++ [s.humidity],
                   wind := b.wind ++ [s.wind] }) :: rest
    else
      (d, b) :: updateGroup rest s

/-- `part_000`: the `grouped` object after the `forEach`. -/
def groupSamples (l : List RawSample) : List (String × Bucket) :=
  l.foldl updateGroup []

/-- `part_000`: the `dailyData.push({...})` body. -/
def summarize (d : String) (b : Bucket) : DailySummary :=
  { date := d
  , temperature := jsRound (mean b.temps)
  , humidity := jsRound (mean b.humidity)
  , windSpeed := toFixed1 (mean b.wind)
  , description := b.description
  , icon := b.icon }

/-- `part_000`: forecast aggregation of `GET /api/forecast/:city`. -/
def processForecast (l : List RawSample) : List DailySummary :=
  ((groupSamples l).take 7).map (fun p => summarize p.1 p.2)

/-- `part_000`: the cache read of `GET /api/weather/:city`. -/
def cacheLookup (cache : List CacheEntry) (city : String) (now : ℤ) :
    Option CacheEntry :=
  cache.find? (fun e => e.city == lowerStr city
    && decide (now - 10 * 60 * 1000 ≤ e.cachedAt))

/-- `part_000`: the cache upsert of `GET /api/weather/:city`. -/
def cacheUpsert (cache : List CacheEntry) (city : String)
    (data : WeatherSnapshot) (now : ℤ) : List CacheEntry :=
  if cache.any (fun e => e.city == city) then
    cache.map (fun e => if e.city == city then ⟨city, data, now⟩ else e)
  else
    cache ++ [⟨city, data, now⟩]

/-- `part_000`: the `GET /api/weather/:city` handler. -/
def getWeather (st : ServerState) (city : String) (eff : Effects) :
    WeatherResponse × ServerState :=
  match cacheLookup st.cache city eff.now with
  | some e => (.ok e.data, st)
  | none =>
    match eff.fetch with
    | .error _ => (.notFound, st)
    | .ok data =>
      if eff.cacheWriteOk then
        let st1 : ServerState :=
          { st with cache := cacheUpsert st.cache (lowerStr city) data eff.now }
        if eff.historyWriteOk then
          (.ok data,
           { st1 with history := st1.history ++ [⟨data.name, eff.now, "default"⟩] })
        else
          (.notFound, st1)
      else
        (.notFound, st)

/-- `part_000`: stable insertion for the `searchedAt`-descending sort. -/
def insertDesc (r : HistoryRecord) : List HistoryRecord → List HistoryRecord
  | [] => [r]
  | x :: xs =>
    if x.searchedAt ≤ r.searchedAt then r :: x :: xs else x :: insertDesc r xs

/-- `part_000`: `SearchHistory.find().sort({ searchedAt: -1 })`. -/
def sortByTimeDesc : List HistoryRecord → List HistoryRecord
  | [] => []
  | r :: rest => insertDesc r (sortByTimeDesc rest)

/-- `part_000`: the dedup `forEach` of `GET /api/history`. -/
def dedupKeepFirst : List HistoryRecord → List String → List HistoryRecord
  | [], _ => []
  | r :: rest, seen =>
    if lowerStr r.city ∈ seen then dedupKeepFirst rest seen
    else r :: dedupKeepFirst rest (lowerStr r.city :: seen)

/-- `part_000`: the read of `GET /api/history`. -/
def listRecent (store : List HistoryRecord) : List HistoryRecord :=
  dedupKeepFirst ((sortByTimeDesc store).take 10) []

/-- `part_000`: the `GET /api/history` handler. -/
def getHistory (dbOk : Bool) (store : List HistoryRecord) : HistoryListResponse :=
  if dbOk then .ok (listRecent store) else .error500

/-- `part_000`: the `DELETE /api/history` handler. -/
def clearHistory (dbOk : Bool) (store : List HistoryRecord) :
    ClearResponse × List HistoryRecord :=
  if dbOk then (.cleared, []) else (.error500, store)

/-- The static `indianCities` list of `src/unnamed/part_000`
(70 entries). -/
def indianCities : List String :=
  ["Mumbai", "Delhi", "Bangalore", "Hyderabad", "Ahmedabad", "Chennai", "Kolkata",
   "Surat", "Pune", "Jaipur", "Lucknow", "Kanpur", "Nagpur", "Indore", "Thane",
   "Bhopal", "Visakhapatnam", "Patna", "Vadodara", "Ghaziabad", "Ludhiana",
   "Agra", "Nashik", "Faridabad", "Meerut", "Rajkot", "Varanasi", "Srinagar",
   "Aurangabad", "Amritsar", "Navi Mumbai", "Allahabad", "Ranchi", "Coimbatore",
   "Jabalpur", "Gwalior", "Vijayawada", "Jodhpur", "Madurai", "Raipur", "Kota",
   "Chandigarh", "Guwahati", "Solapur", "Mysore", "Bareilly", "Aligarh",
   "Moradabad", "Jalandhar", "Bhubaneswar", "Salem", "Warangal",
   "Thiruvananthapuram", "Noida", "Jamshedpur", "Bhilai", "Cuttack", "Dehradun",
   "Durgapur", "Asansol", "Rourkela", "Nanded", "Kolhapur", "Ajmer", "Ujjain",
   "Jhansi", "Jammu", "Mangalore", "Erode", "Udaipur", "Panipat"]

/-- `part_000`: the `GET /api/cities/search` handler (no `try`/`catch`;
an absent `q` raises an uncaught `TypeError`). -/
def citiesSearch (q : Option String) : Except Unit (List String) :=
  match q with
  | none => .error ()
  | some q =>
    .ok ((indianCities.filter
      (fun city => strIncludes (lowerStr city) (lowerStr q))).take 5)

/-- `part_000`: the `GET /health` handler. -/
def health : Bool := true

end Server2

/-- The date keys in order of first encounter, as JavaScript assembles the
keys of `grouped`. -/
def firstEncountered (l : List String) : List String :=
  l.foldl (fun acc d => if d ∈ acc then acc else acc ++ [d]) []

/-! ### Concrete fixtures -/

/-- Three samples of one date: the averaging example of the specification
(temperatures `[10, 20, 21]`, humidity `[40, 50, 51]`,
wind `[1.0, 2.0, 2.2]`). -/
def sampleDayA : List RawSample :=
  [⟨"6/10/2025", 10, 40, 1, "clear sky", "01d"⟩,
   ⟨"6/10/2025", 20, 50, 2, "few clouds", "02d"⟩,
   ⟨"6/10/2025", 21, 51, 11/5, "overcast clouds", "04d"⟩]

/-- Two samples of one date whose temperatures average to `-2.5`. -/
def sampleDayNeg : List RawSample :=
  [⟨"7/10/2025", -2, 40, 1, "snow", "13d"⟩,
   ⟨"7/10/2025", -3, 42, 2, "snow", "13d"⟩]

/-- Ten samples carrying ten distinct dates, deliberately not in
chronological order. -/
def tenDates : List RawSample :=
  [⟨"d03", 1, 1, 1, "w", "i"⟩, ⟨"d01", 2, 2, 2, "w", "i"⟩,
   ⟨"d04", 3, 3, 3, "w", "i"⟩, ⟨"d02", 4, 4, 4, "w", "i"⟩,
   ⟨"d05", 5, 5, 5, "w", "i"⟩, ⟨"d09", 6, 6, 6, "w", "i"⟩,
   ⟨"d06", 7, 7, 7, "w", "i"⟩, ⟨"d10", 8, 8, 8, "w", "i"⟩,
   ⟨"d07", 9, 9, 9, "w", "i"⟩, ⟨"d08", 10, 10, 10, "w", "i"⟩]

/-- A current-weather payload for Pune. -/
def snapPune : WeatherSnapshot := ⟨"Pune", "current-weather-json"⟩

/-- A cache entry for Pune written at time `0`. -/
def entryPune : CacheEntry := ⟨"pune", snapPune, 0⟩

/-- Four history records; sorted by `searchedAt` descending they read
`Pune, Mumbai, Pune, Delhi`. -/
def historyPMPD : List HistoryRecord :=
  [⟨"Delhi", 1, "default"⟩, ⟨"Pune", 2, "default"⟩,
   ⟨"Mumbai", 3, "default"⟩, ⟨"Pune", 4, "default"⟩]

/-- A one-sample forecast input. -/
def singleSample : List RawSample := [⟨"8/10/2025", 10, 40, 1, "mist", "50d"⟩]

/-- The bucket the single sample of `singleSample` produces. -/
def singleBucket : Bucket := ⟨[10], [40], [1], "mist", "50d"⟩

/-- A bucket accumulated by the grouping loop has non-empty value lists
(it is created from a sample and only ever extended). -/
def goodBucket (b : Bucket) : Prop :=
  b.temps ≠ [] ∧ b.humidity ≠ [] ∧ b.wind ≠ []

/-! ### Rounding helpers -/

/-- `jsRound x = n` as soon as `n ≤ x + 1/2 < n + 1`. -/
theorem jsRound_eq_of (x : ℚ) (n : ℤ) (h1 : (n : ℚ) ≤ x + 1/2)
    (h2 : x + 1/2 < n + 1) : jsRound x = n :=
  Int.floor_eq_iff.mpr ⟨h1, h2⟩

/-- Evaluation of `toFixed1` on a non-negative rational whose scaled
rounding is `n`. -/
theorem toFixed1_eq_of (x : ℚ) (n : ℕ) (h0 : 0 ≤ x)
    (h1 : (n : ℚ) ≤ 10 * x + 1/2) (h2 : 10 * x + 1/2 < n + 1) :
    toFixed1 x = toString (n / 10) ++ "." ++ toString (n % 10) := by
  have hfl : ⌊10 * |x| + 1/2⌋ = (n : ℤ) := by
    rw [abs_of_nonneg h0]
    exact Int.floor_eq_iff.mpr ⟨by exact_mod_cast h1, by push_cast; exact h2⟩
  unfold toFixed1
  rw [if_neg (not_lt.mpr h0), hfl, Int.toNat_natCast]
  simp

/-! ### Structure of the grouping loop -/

/-- One grouping step updates the key list the way JavaScript updates
`Object.keys(grouped)`: an already-present date leaves the keys unchanged,
a new date is appended. -/
theorem updateGroup_keys (g : List (String × Bucket)) (s : RawSample) :
    (Server1.updateGroup g s).map Prod.fst =
      if s.date ∈ g.map Prod.fst then g.map Prod.fst
      else g.map Prod.fst ++ [s.date] := by
  induction g with
  | nil => simp [Server1.updateGroup]
  | cons p rest ih =>
    obtain ⟨d, b⟩ := p
    by_cases h : d = s.date
    · subst h
      simp [Server1.updateGroup]
    · have h' : ¬ s.date = d := fun hh => h hh.symm
      simp only [Server1.updateGroup, if_neg h, List.map_cons, ih, List.mem_cons]
      by_cases hm : s.date ∈ rest.map Prod.fst
      · simp [hm, h']
      · simp [hm, h']

theorem groupSamples_keys_aux (l : List RawSample) (g : List (String × Bucket)) :
    (l.foldl Server1.updateGroup g).map Prod.fst =
      (l.map RawSample.date).foldl
        (fun acc d => if d ∈ acc then acc else acc ++ [d]) (g.map Prod.fst) := by
  induction l generalizing g with
  | nil => rfl
  | cons s rest ih =>
    rw [List.foldl_cons, List.map_cons, List.foldl_cons, ih, updateGroup_keys]

/-- The keys of `grouped` are the sample dates in first-encountered
order. -/
theorem groupSamples_keys (l : List RawSample) :
    (Server1.groupSamples l).map Prod.fst = firstEncountered (l.map RawSample.date) :=
  groupSamples_keys_aux l []

theorem firstEncountered_aux_nodup (l : List String) (acc : List String)
    (h : acc.Nodup) :
    (l.foldl (fun acc d => if d ∈ acc then acc else acc ++ [d]) acc).Nodup := by
  induction l generalizing acc with
  | nil => exact h
  | cons d rest ih =>
    rw [List.foldl_cons]
    by_cases hm : d ∈ acc
    · rw [if_pos hm]; exact ih acc h
    · rw [if_neg hm]
      refine ih _ ?_
      rw [List.nodup_append]
      exact ⟨h, List.nodup_singleton d, by simpa using hm⟩

theorem firstEncountered_nodup (l : List String) : (firstEncountered l).Nodup :=
  firstEncountered_aux_nodup l [] List.nodup_nil

theorem updateGroup_good (g : List (String × Bucket)) (s : RawSample)
    (h : ∀ p ∈ g, goodBucket p.2) :
    ∀ p ∈ Server1.updateGroup g s, goodBucket p.2 := by
  induction g with
  | nil =>
    intro p hp
    simp only [Server1.updateGroup, List.mem_singleton] at hp
    subst hp
    exact ⟨by simp, by simp, by simp⟩
  | cons q rest ih =>
    obtain ⟨d, b⟩ := q
    intro p hp
    by_cases hd : d = s.date
    · rw [Server1.updateGroup, if_pos hd] at hp
      rcases List.mem_cons.mp hp with hp | hp
      · subst hp
        exact ⟨by simp, by simp, by simp⟩
      · exact h p (List.mem_cons_of_mem _ hp)
    · rw [Server1.updateGroup, if_neg hd] at hp
      rcases List.mem_cons.mp hp with hp | hp
      · subst hp; exact h _ (List.mem_cons_self _ _)
      · exact ih (fun q hq => h q (List.mem_cons_of_mem _ hq)) p hp

/-- Every bucket of `grouped` carries non-empty value lists. -/
theorem groupSamples_good (l : List RawSample) :
    ∀ p ∈ Server1.groupSamples l, goodBucket p.2 := by
  have aux : ∀ (l : List RawSample) (g : List (String × Bucket)),
      (∀ p ∈ g, goodBucket p.2) →
      ∀ p ∈ l.foldl Server1.updateGroup g, goodBucket p.2 := by
    intro l
    induction l with
    | nil => intro g hg; exact hg
    | cons s rest ih =>
      intro g hg
      rw [List.foldl_cons]
      exact ih _ (updateGroup_good g s hg)
  exact aux l [] (by simp)

/-! ### Structure of the history read -/

theorem dedupKeepFirst_sublist (l : List HistoryRecord) (seen : List String) :
    (Server1.dedupKeepFirst l seen).Sublist l := by
  induction l generalizing seen with
  | nil => simp [Server1.dedupKeepFirst]
  | cons r rest ih =>
    rw [Server1.dedupKeepFirst]
    by_cases h : lowerStr r.city ∈ seen
    · rw [if_pos h]; exact (ih seen).cons r
    · rw [if_neg h]; exact (ih _).cons₂ r

theorem dedupKeepFirst_not_seen (l : List HistoryRecord) (seen : List String) :
    ∀ r ∈ Server1.dedupKeepFirst l seen, lowerStr r.city ∉ seen := by
  induction l generalizing seen with
  | nil => simp [Server1.dedupKeepFirst]
  | cons r rest ih =>
    intro x hx
    rw [Server1.dedupKeepFirst] at hx
    by_cases h : lowerStr r.city ∈ seen
    · rw [if_pos h] at hx; exact ih seen x hx
    · rw [if_neg h] at hx
      rcases List.mem_cons.mp hx with hx | hx
      · subst hx; exact h
      · intro hc
        exact ih _ x hx (List.mem_cons_of_mem _ hc)

/-- The dedup keeps at most one record per lowercased city. -/
theorem dedupKeepFirst_pairwise (l : List HistoryRecord) (seen : List String) :
    (Server1.dedupKeepFirst l seen).Pairwise
      (fun a b => lowerStr a.city ≠ lowerStr b.city) := by
  induction l generalizing seen with
  | nil => simp [Server1.dedupKeepFirst]
  | cons r rest ih =>
    rw [Server1.dedupKeepFirst]
    by_cases h : lowerStr r.city ∈ seen
    · rw [if_pos h]; exact ih seen
    · rw [if_neg h]
      refine List.pairwise_cons.mpr ⟨?_, ih _⟩
      intro b hb heq
      exact dedupKeepFirst_not_seen rest _ b hb (heq ▸ List.mem_cons_self _ _)

theorem listRecent_length_le (store : List HistoryRecord) :
    (Server1.listRecent store).length ≤ 10 := by
  calc (Server1.listRecent store).length
      ≤ ((Server1.sortByTimeDesc store).take 10).length :=
        (dedupKeepFirst_sublist _ _).length_le
    _ ≤ 10 := by simp

theorem listRecent_pairwise (store : List HistoryRecord) :
    (Server1.listRecent store).Pairwise
      (fun a b => lowerStr a.city ≠ lowerStr b.city) :=
  dedupKeepFirst_pairwise _ _

theorem mem_insertDesc (r b : HistoryRecord) (l : List HistoryRecord) :
    b ∈ Server1.insertDesc r l ↔ b = r ∨ b ∈ l := by
  induction l with
  | nil => simp [Server1.insertDesc]
  | cons x xs ih =>
    rw [Server1.insertDesc]
    by_cases hle : x.searchedAt ≤ r.searchedAt
    · rw [if_pos hle]; simp [List.mem_cons]
    · rw [if_neg hle]; simp [List.mem_cons, ih, or_left_comm]

theorem insertDesc_pairwise (r : HistoryRecord) (l : List HistoryRecord)
    (h : l.Pairwise (fun a b => b.searchedAt ≤ a.searchedAt)) :
    (Server1.insertDesc r l).Pairwise (fun a b => b.searchedAt ≤ a.searchedAt) := by
  induction l with
  | nil => simp [Server1.insertDesc]
  | cons x xs ih =>
    rw [Server1.insertDesc]
    rcases List.pairwise_cons.mp h with ⟨hx, hxs⟩
    by_cases hle : x.searchedAt ≤ r.searchedAt
    · rw [if_pos hle]
      refine List.pairwise_cons.mpr ⟨?_, h⟩
      intro b hb
      rcases List.mem_cons.mp hb with hb | hb
      · subst hb; exact hle
      · exact le_trans (hx b hb) hle
    · rw [if_neg hle]
      refine List.pairwise_cons.mpr ⟨?_, ih hxs⟩
      intro b hb
      rcases (mem_insertDesc r b xs).mp hb with hb | hb
      · subst hb; exact le_of_lt (lt_of_not_le hle)
      · exact hx b hb

/-- The sort of the history read is ordered by `searchedAt` descending. -/
theorem sortByTimeDesc_pairwise (store : List HistoryRecord) :
    (Server1.sortByTimeDesc store).Pairwise
      (fun a b => b.searchedAt ≤ a.searchedAt) := by
  induction store with
  | nil => simp [Server1.sortByTimeDesc]
  | cons r rest ih => exact insertDesc_pairwise r _ ih

/-- The deduplicated history list is still ordered newest first. -/
theorem listRecent_sorted (store : List HistoryRecord) :
    (Server1.listRecent store).Pairwise
      (fun a b => b.searchedAt ≤ a.searchedAt) :=
  List.Pairwise.sublist
    ((dedupKeepFirst_sublist _ _).trans (List.take_sublist _ _))
    (sortByTimeDesc_pairwise store)

/-! ### The two source files compute the same functions (except the city list) -/

theorem updateGroup_eq (g : List (String × Bucket)) (s : RawSample) :
    Server1.updateGroup g s = Server2.updateGroup g s := by
  induction g with
  | nil => rfl
  | cons p rest ih =>
    obtain ⟨d, b⟩ := p
    rw [Server1.updateGroup, Server2.updateGroup]
    by_cases h : d = s.date
    · rw [if_pos h, if_pos h]
    · rw [if_neg h, if_neg h, ih]

theorem groupSamples_eq (l : List RawSample) :
    Server1.groupSamples l = Server2.groupSamples l := by
  rw [Server1.groupSamples, Server2.groupSamples,
    show Server1.updateGroup = Server2.updateGroup from
      funext fun g => funext fun s => updateGroup_eq g s]

theorem processForecast_eq (l : List RawSample) :
    Server1.processForecast l = Server2.processForecast l := by
  rw [Server1.processForecast, Server2.processForecast, groupSamples_eq]
  rfl

theorem insertDesc_eq (r : HistoryRecord) (l : List HistoryRecord) :
    Server1.insertDesc r l = Server2.insertDesc r l := by
  induction l with
  | nil => rfl
  | cons x xs ih =>
    rw [Server1.insertDesc, Server2.insertDesc]
    by_cases h : x.searchedAt ≤ r.searchedAt
    · rw [if_pos h, if_pos h]
    · rw [if_neg h, if_neg h, ih]

theorem sortByTimeDesc_eq (l : List HistoryRecord) :
    Server1.sortByTimeDesc l = Server2.sortByTimeDesc l := by
  induction l with
  | nil => rfl
  | cons r rest ih =>
    rw [Server1.sortByTimeDesc, Server2.sortByTimeDesc, ih, insertDesc_eq]

theorem dedupKeepFirst_eq (l : List HistoryRecord) (seen : List String) :
    Server1.dedupKeepFirst l seen = Server2.dedupKeepFirst l seen := by
  induction l generalizing seen with
  | nil => rfl
  | cons r rest ih =>
    rw [Server1.dedupKeepFirst, Server2.dedupKeepFirst]
    by_cases h : lowerStr r.city ∈ seen
    · rw [if_pos h, if_pos h, ih]
    · rw [if_neg h, if_neg h, ih]

theorem listRecent_eq (store : List HistoryRecord) :
    Server1.listRecent store = Server2.listRecent store := by
  rw [Server1.listRecent, Server2.listRecent, sortByTimeDesc_eq, dedupKeepFirst_eq]

theorem getHistory_eq (dbOk : Bool) (store : List HistoryRecord) :
    Server1.getHistory dbOk store = Server2.getHistory dbOk store := by
  rw [Server1.getHistory, Server2.getHistory, listRecent_eq]

/-! ### The claims -/

/-- C9: on the empty forecast sample list the aggregator returns the empty
list of daily summaries, raising no error. -/
theorem forecast_empty_input : Server1.processForecast [] = [] := rfl

/-- C2: the aggregator emits one `DailySummary` per date bucket, in the
order in which each date string was first encountered in the input (not
sorted), truncated to the first 7 buckets; an input with 10 distinct date
buckets yields exactly 7 summaries in first-encountered order. -/
theorem forecast_first_encounter_order :
    (∀ l : List RawSample,
      (Server1.processForecast l).map DailySummary.date =
        (firstEncountered (l.map RawSample.date)).take 7) ∧
    (∀ l : List RawSample,
      ((Server1.processForecast l).map DailySummary.date).Nodup) ∧
    (Server1.processForecast tenDates).map DailySummary.date =
      ["d03", "d01", "d04", "d02", "d05", "d09", "d06"] ∧
    (Server1.processForecast tenDates).length = 7 := by
  have h1 : ∀ l : List RawSample,
      (Server1.processForecast l).map DailySummary.date =
        (firstEncountered (l.map RawSample.date)).take 7 := by
    intro l
    rw [Server1.processForecast, List.map_map]
    have hcomp : (DailySummary.date ∘ fun p : String × Bucket =>
        Server1.summarize p.1 p.2) = Prod.fst := funext fun p => rfl
    rw [hcomp, List.map_take, groupSamples_keys]
  refine ⟨h1, ?_, ?_, rfl⟩
  · intro l
    rw [h1]
    exact (List.take_sublist _ _).nodup (firstEncountered_nodup _)
  · rfl

/-- C4: the history listing sorts by `searchedAt` descending, truncates to
the 10 most recent, then drops later records whose lowercased city already
occurred; `Pune, Mumbai, Pune, Delhi` (newest first) becomes
`Pune, Mumbai, Delhi`, and the result never exceeds 10 records. -/
theorem history_listRecent_spec :
    (∀ store : List HistoryRecord, (Server1.listRecent store).length ≤ 10) ∧
    (∀ store : List HistoryRecord,
      (Server1.listRecent store).Pairwise
        (fun a b => lowerStr a.city ≠ lowerStr b.city)) ∧
    (∀ store : List HistoryRecord,
      (Server1.listRecent store).Pairwise
        (fun a b => b.searchedAt ≤ a.searchedAt)) ∧
    (Server1.listRecent historyPMPD).map HistoryRecord.city =
      ["Pune", "Mumbai", "Delhi"] :=
  ⟨listRecent_length_le, listRecent_pairwise, listRecent_sorted, by decide⟩

/-- C6 (the code deviates): the `GET /api/cities/search` handler has no
`try`/`catch`, so with the query parameter `q` absent the
`q.toLowerCase()` `TypeError` escapes as a raw uncaught error instead of
being mapped to the 404 or 500 shape. -/
theorem citiesSearch_uncaught_missing_q :
    Server1.citiesSearch none = Except.error () := rfl

/-- C10 counterexample: on the query `howrah` the two files' autocomplete
handlers answer differently (`server.js` lists `Howrah`, `part_000` does
not). -/
theorem servers_cities_differ :
    Server1.citiesSearch (some "howrah") = Except.ok ["Howrah"] ∧
    Server2.citiesSearch (some "howrah") = Except.ok [] := ⟨rfl, rfl⟩

/-- C10 amended: the two files' handlers agree extensionally on five of
the six endpoints (current weather, forecast, history read, history
clear, health); the autocomplete handlers differ because the static city
lists differ. -/
theorem servers_agree_except_cities :
    (∀ (st : ServerState) (city : String) (eff : Effects),
      Server1.getWeather st city eff = Server2.getWeather st city eff) ∧
    (∀ l : List RawSample, Server1.processForecast l = Server2.processForecast l) ∧
    (∀ (dbOk : Bool) (store : List HistoryRecord),
      Server1.getHistory dbOk store = Server2.getHistory dbOk store) ∧
    (∀ (dbOk : Bool) (store : List HistoryRecord),
      Server1.clearHistory dbOk store = Server2.clearHistory dbOk store) ∧
    Server1.health = Server2.health ∧
    Server1.citiesSearch (some "howrah") ≠ Server2.citiesSearch (some "howrah") := by
  refine ⟨fun st c e => rfl, processForecast_eq, getHistory_eq,
    fun o s => rfl, rfl, ?_⟩
  have h1 : Server1.citiesSearch (some "howrah") = Except.ok ["Howrah"] := rfl
  have h2 : Server2.citiesSearch (some "howrah") = Except.ok [] := rfl
  rw [h1, h2]
  simp

/-- C3 counterexample: an entry cached at time 0 and looked up at exactly
10 minutes is returned, although `now - cachedAt < 10 minutes` fails
there — the code's window is `≤`, not `<`. -/
theorem cache_boundary_counterexample :
    Server1.cacheLookup [entryPune] "Pune" 600000 = some entryPune ∧
    ¬((600000 : ℤ) - entryPune.cachedAt < 10 * 60 * 1000) := by
  exact ⟨rfl, by decide⟩

/-- C3 amended: a cached entry is returned exactly when
`now - cachedAt ≤ 10 minutes` (the Mongo filter is
`cachedAt >= now - 10min`); at `now + 9m59s` it is returned, at
`now + 10m01s` it is treated as absent, and a stale entry is ignored,
not deleted (the lookup is read-only). -/
theorem cache_freshness_window :
    (∀ (e : CacheEntry) (q : String) (now : ℤ), e.city = lowerStr q →
      Server1.cacheLookup [e] q now =
        if now - e.cachedAt ≤ 10 * 60 * 1000 then some e else none) ∧
    Server1.cacheLookup [entryPune] "Pune" 599000 = some entryPune ∧
    Server1.cacheLookup [entryPune] "Pune" 601000 = none := by
  refine ⟨?_, rfl, rfl⟩
  intro e q now h
  have hiff : (now - 10 * 60 * 1000 ≤ e.cachedAt) ↔
      (now - e.cachedAt ≤ 10 * 60 * 1000) := by omega
  unfold Server1.cacheLookup
  by_cases hf : now - e.cachedAt ≤ 10 * 60 * 1000
  · rw [if_pos hf]
    apply List.find?_cons_of_pos
    simp only [h, beq_self_eq_true, Bool.true_and, decide_eq_true_eq]
    omega
  · rw [if_neg hf]
    rw [List.find?_cons_of_neg, List.find?_nil]
    simp only [h, beq_self_eq_true, Bool.true_and, Bool.and_eq_false_imp,
      decide_eq_true_eq, decide_eq_false_iff_not]
    omega

/-- C3 witness: the freshness characterization applied at a concrete
stale lookup (20 minutes after caching). -/
theorem cache_freshness_window_witness :
    Server1.cacheLookup [entryPune] "Pune" 1200000 = none := by
  rw [cache_freshness_window.1 entryPune "Pune" 1200000 rfl]
  decide

/-- C5 counterexample: the provider fetch succeeds but the awaited cache
write rejects; the handler's `catch` answers 404 instead of returning the
fetched payload with 200. -/
theorem weather_write_failure_counterexample :
    (Server1.getWeather ⟨[], []⟩ "pune" ⟨Except.ok snapPune, false, true, 0⟩).1 =
      WeatherResponse.notFound := rfl

/-- C5 amended: because the cache and history writes are awaited inside
the `try`, a failure of either write after a successful provider fetch
makes the request answer 404 `City not found` rather than the fetched
payload. -/
theorem weather_write_failure_404 (st : ServerState) (city : String)
    (w : WeatherSnapshot) (eff : Effects)
    (hmiss : Server1.cacheLookup st.cache city eff.now = none)
    (hfetch : eff.fetch = Except.ok w)
    (hfail : eff.cacheWriteOk = false ∨ eff.historyWriteOk = false) :
    (Server1.getWeather st city eff).1 = WeatherResponse.notFound := by
  unfold Server1.getWeather
  rw [hmiss, hfetch]
  rcases hfail with hf | hf
  · rw [hf]
    rfl
  · cases hc : eff.cacheWriteOk
    · rfl
    · rw [hf]
      rfl

/-- C5 witness: the amended statement at a concrete failing history
write. -/
theorem weather_write_failure_404_witness :
    (Server1.getWeather ⟨[], []⟩ "pune" ⟨Except.ok snapPune, true, false, 5⟩).1 =
      WeatherResponse.notFound :=
  weather_write_failure_404 ⟨[], []⟩ "pune" snapPune _ rfl rfl (Or.inr rfl)

/-- C8 counterexample: a successful provider fetch whose awaited history
write rejects appends no history record, so "exactly once per successful
provider fetch" fails as stated. -/
theorem history_append_counterexample :
    (⟨Except.ok snapPune, true, false, 0⟩ : Effects).fetch = Except.ok snapPune ∧
    (Server1.getWeather ⟨[], []⟩ "pune"
      ⟨Except.ok snapPune, true, false, 0⟩).2.history = [] :=
  ⟨rfl, rfl⟩

/-- C8 amended: a cache hit returns the cached payload and leaves both
stores untouched (no history append, cache unchanged); a history record
is appended exactly once per successful provider fetch whose cache and
history writes both succeed. -/
theorem weather_cache_hit_frame :
    (∀ (st : ServerState) (city : String) (eff : Effects) (e : CacheEntry),
      Server1.cacheLookup st.cache city eff.now = some e →
      Server1.getWeather st city eff = (WeatherResponse.ok e.data, st)) ∧
    (∀ (st : ServerState) (city : String) (w : WeatherSnapshot) (eff : Effects),
      Server1.cacheLookup st.cache city eff.now = none →
      eff.fetch = Except.ok w → eff.cacheWriteOk = true → eff.historyWriteOk = true →
      (Server1.getWeather st city eff).2.history =
        st.history ++ [⟨w.name, eff.now, "default"⟩]) := by
  constructor
  · intro st city eff e hhit
    unfold Server1.getWeather
    rw [hhit]
  · intro st city w eff hmiss hfetch hcw hhw
    unfold Server1.getWeather
    rw [hmiss, hfetch, hcw, hhw]
    rfl

/-- C8 witness: the cache-hit frame condition at a concrete fresh
entry. -/
theorem weather_cache_hit_frame_witness :
    Server1.getWeather ⟨[entryPune], []⟩ "Pune" ⟨Except.error (), true, true, 1000⟩ =
      (WeatherResponse.ok entryPune.data, ⟨[entryPune], []⟩) :=
  weather_cache_hit_frame.1 ⟨[entryPune], []⟩ "Pune"
    ⟨Except.error (), true, true, 1000⟩ entryPune rfl

/-- C1 counterexample: a bucket with temperatures `[-2, -3]` has mean
`-2.5`; rounding half away from zero gives `-3`, but the emitted
temperature is `-2` (JavaScript `Math.round` rounds a tie toward positive
infinity). -/
theorem forecast_negative_tie_counterexample :
    (Server1.groupSamples sampleDayNeg).map (fun p => p.2.temps) = [[-2, -3]] ∧
    (Server1.processForecast sampleDayNeg).map DailySummary.temperature = [-2] ∧
    roundHalfAwayFromZero (mean [-2, -3]) = -3 := by
  refine ⟨rfl, ?_, ?_⟩
  · have h0 : Server1.processForecast sampleDayNeg =
        [Server1.summarize "7/10/2025" ⟨[-2, -3], [40, 42], [1, 2], "snow", "13d"⟩] := rfl
    rw [h0]
    have hm : mean [(-2 : ℚ), -3] = -5/2 := by norm_num [mean]
    simp only [List.map_cons, List.map_nil, Server1.summarize, hm]
    rw [jsRound_eq_of (-5/2) (-2) (by norm_num) (by norm_num)]
  · have hm : mean [(-2 : ℚ), -3] = -5/2 := by norm_num [mean]
    rw [hm, roundHalfAwayFromZero, if_pos (by norm_num : (-5/2 : ℚ) < 0)]
    norm_num

/-- C1 amended: every emitted summary takes its temperature and humidity
from `Math.round` of the bucket mean — nearest integer with ties toward
positive infinity (agreeing with ties-away-from-zero on non-negative
means, e.g. `round 2.5 = 3`, but `round (-2.5) = -2`) — and its wind
speed from the mean formatted with exactly one fraction digit by
`toFixed(1)` (standard rounding, not truncation); the spec averaging
example gives `17`, `47`, `"1.7"`. -/
theorem forecast_rounding_spec :
    (∀ (l : List RawSample) (s : DailySummary), s ∈ Server1.processForecast l →
      ∃ d b, (d, b) ∈ (Server1.groupSamples l).take 7 ∧
        b.temps ≠ [] ∧ b.humidity ≠ [] ∧ b.wind ≠ [] ∧
        s.temperature = jsRound (mean b.temps) ∧
        s.humidity = jsRound (mean b.humidity) ∧
        s.windSpeed = toFixed1 (mean b.wind)) ∧
    jsRound (5/2) = 3 ∧ jsRound (-5/2) = -2 ∧
    Server1.processForecast sampleDayA =
      [⟨"6/10/2025", 17, 47, "1.7", "clear sky", "01d"⟩] := by
  refine ⟨?_, ?_, ?_, ?_⟩
  · intro l s hs
    rw [Server1.processForecast] at hs
    rcases List.mem_map.mp hs with ⟨⟨d, b⟩, hmem, hsum⟩
    have hgood : goodBucket b :=
      groupSamples_good l ⟨d, b⟩ (List.take_subset _ _ hmem)
    exact ⟨d, b, hmem, hgood.1, hgood.2.1, hgood.2.2,
      hsum ▸ rfl, hsum ▸ rfl, hsum ▸ rfl⟩
  · exact jsRound_eq_of (5/2) 3 (by norm_num) (by norm_num)
  · exact jsRound_eq_of (-5/2) (-2) (by norm_num) (by norm_num)
  · have h0 : Server1.processForecast sampleDayA =
        [Server1.summarize "6/10/2025"
          ⟨[10, 20, 21], [40, 50, 51], [1, 2, 11/5], "clear sky", "01d"⟩] := rfl
    rw [h0]
    have ht : mean [(10 : ℚ), 20, 21] = 17 := by norm_num [mean]
    have hh : mean [(40 : ℚ), 50, 51] = 47 := by norm_num [mean]
    have hw : mean [(1 : ℚ), 2, 11/5] = 26/15 := by norm_num [mean]
    simp only [Server1.summarize, ht, hh, hw]
    rw [jsRound_eq_of 17 17 (by norm_num) (by norm_num),
      jsRound_eq_of 47 47 (by norm_num) (by norm_num),
      toFixed1_eq_of (26/15) 17 (by norm_num) (by norm_num) (by norm_num)]
    rfl

/-- C1 witness: the bucket characterization applied to a one-sample
input. -/
theorem forecast_rounding_spec_witness :
    ∃ d b, (d, b) ∈ (Server1.groupSamples singleSample).take 7 ∧
      b.temps ≠ [] ∧ b.humidity ≠ [] ∧ b.wind ≠ [] ∧
      (Server1.summarize "8/10/2025" singleBucket).temperature = jsRound (mean b.temps) ∧
      (Server1.summarize "8/10/2025" singleBucket).humidity = jsRound (mean b.humidity) ∧
      (Server1.summarize "8/10/2025" singleBucket).windSpeed = toFixed1 (mean b.wind) :=
  forecast_rounding_spec.1 singleSample (Server1.summarize "8/10/2025" singleBucket)
    (List.mem_singleton.mpr rfl)

/-- C7 counterexample: the whitespace-only query `" "` is not treated as
the empty substring; it filters for city names containing a space,
returning `["Navi Mumbai"]` rather than the first 5 list entries. -/
theorem citiesSearch_whitespace_counterexample :
    Server1.citiesSearch (some " ") = Except.ok ["Navi Mumbai"] ∧
    Server1.indianCities.take 5 =
      ["Mumbai", "Delhi", "Bangalore", "Hyderabad", "Ahmedabad"] ∧
    (["Navi Mumbai"] : List String) ≠
      ["Mumbai", "Delhi", "Bangalore", "Hyderabad", "Ahmedabad"] :=
  ⟨rfl, rfl, by decide⟩

/-- C7 amended: autocomplete returns at most 5 names, a case-insensitive
substring filter over the static list preserving its order; the empty
query returns the first 5 entries, while a whitespace-only query filters
by that whitespace substring. -/
theorem citiesSearch_spec :
    (∀ (q : String) (r : List String),
      Server1.citiesSearch (some q) = Except.ok r →
      r.length ≤ 5 ∧ r.Sublist Server1.indianCities) ∧
    Server1.citiesSearch (some "") = Except.ok (Server1.indianCities.take 5) ∧
    Server1.citiesSearch (some "mum") = Except.ok ["Mumbai", "Navi Mumbai"] := by
  refine ⟨?_, rfl, rfl⟩
  intro q r h
  rw [Server1.citiesSearch] at h
  have hr : r = (Server1.indianCities.filter
      (fun city => strIncludes (lowerStr city) (lowerStr q))).take 5 :=
    (Except.ok.injEq .. ▸ h : _ = _).symm
  subst hr
  constructor
  · exact List.length_take_le 5 _
  · exact (List.take_sublist _ _).trans (List.filter_sublist _)

/-- C7 witness: the bound and order-preservation applied to the empty
query. -/
theorem citiesSearch_spec_witness :
    (Server1.indianCities.take 5).length ≤ 5 ∧
    (Server1.indianCities.take 5).Sublist Server1.indianCities :=
  citiesSearch_spec.1 "" (Server1.indianCities.take 5) citiesSearch_spec.2.1
